import Mathlib

/-!
Verification of the step-gated clinical intake workflow.

This file gives a shallow embedding, in Lean 4, of the core data model and
operations of the workflow engine (step-based patient record storage, the
field-validity filter, downstream-step invalidation, the differential
diagnosis narrowing loop, the comprehensive-diagnosis priority weighting,
and the case submission gate), translated from `app_new.py`, and proves or
refutes the testable properties stated for them.

Modelling conventions:
* Python dicts are association lists (`List (String × PyVal)`); lookup takes
  the first matching key, mirroring the uniqueness of keys in Python dicts.
* Python values flowing through the filters are `PyVal` (None, str, int,
  bool, dict, list).
* Wall-clock timestamps are opaque strings passed in by the caller.
* The reasoning service (LLM backend) is an oracle parameter: its parsed
  response (or a thrown failure) is an explicit argument to each function
  that calls it, so every theorem quantifies over all possible responses.
* The application keeps two distinct stores: the per-session JSON file
  (written by `save_patient_data` / read by `load_patient_data`, holding the
  `step1`..`step7` records and the `step_completed` value used by
  `validate_session_step`), and the legacy Flask-session dict (holding the
  old `registration`/`vitals`/... sections).  Both are modelled explicitly,
  because several operations touch only one of them.
-/

/-- A Python value, as passed through the step-data filters.  `none` is
Python `None`. -/
inductive PyVal where
  | none
  | str (s : String)
  | int (n : Int)
  | bool (b : Bool)
  | dict (fields : List (String × PyVal))
  | list (elems : List PyVal)

/-- First-match association-list lookup: Python `d.get(key)` on a dict. -/
def alookup : List (String × PyVal) → String → Option PyVal
  | [], _ => Option.none
  | (k, v) :: rest, key => if key = k then some v else alookup rest key

/-- Python `d.get(key, default)`. -/
def pyDictGet (fields : List (String × PyVal)) (key : String) (default : PyVal) : PyVal :=
  match alookup fields key with
  | some v => v
  | Option.none => default

/-- Python `len(...)` on the values that can reach a `len` call here. -/
def pyLen : PyVal → Nat
  | .str s => s.length
  | .dict fields => fields.length
  | .list elems => elems.length
  | _ => 0

/-!
Character-level models of the Python string methods used by the source
(`str.strip`, `str.lower`, `str.endswith`, slicing, `str.split`, `in`).
They are written by structural recursion on the character list so that the
kernel can evaluate them on concrete inputs.
-/

/-- Python `s.lower()` (ASCII). -/
def pyLower (s : String) : String := String.mk (s.data.map Char.toLower)

/-- Strip leading and trailing whitespace from a character list. -/
def stripList (l : List Char) : List Char :=
  ((l.dropWhile Char.isWhitespace).reverse.dropWhile Char.isWhitespace).reverse

/-- Python `s.strip()`. -/
def pyStrip (s : String) : String := String.mk (stripList s.data)

/-- Whether the first character list is a prefix of the second. -/
def charListPre : List Char → List Char → Bool
  | [], _ => true
  | _ :: _, [] => false
  | a :: as, b :: bs => a == b && charListPre as bs

/-- Whether `pat` occurs as a contiguous substring. -/
def charListInfix (pat : List Char) : List Char → Bool
  | [] => charListPre pat []
  | b :: bs => charListPre pat (b :: bs) || charListInfix pat bs

/-- Python `pat in s` (substring containment). -/
def strContains (s pat : String) : Bool :=
  charListInfix pat.data s.data

/-- Python `s.endswith(suffix)`. -/
def pyEndsWith (s suffix : String) : Bool :=
  charListPre suffix.data.reverse s.data.reverse

/-- Python `s[:-n]` for `n ≤ len(s)`. -/
def pyDropRight (s : String) (n : Nat) : String :=
  String.mk (s.data.take (s.data.length - n))

/-- Helper of `pyWords`: split at whitespace runs, accumulating the current
word in reverse. -/
def wordsAux : List Char → List Char → List String
  | [], acc => if acc.isEmpty then [] else [String.mk acc.reverse]
  | c :: rest, acc =>
      if c.isWhitespace then
        (if acc.isEmpty then wordsAux rest [] else String.mk acc.reverse :: wordsAux rest [])
      else wordsAux rest (c :: acc)

/-- Python `s.split()`: words separated by whitespace runs, no empties. -/
def pyWords (s : String) : List String := wordsAux s.data []

/-- Helper of single-character `s.split(sep)`: empty parts are kept. -/
def splitOnCharAux (sep : Char) : List Char → List Char → List String
  | [], acc => [String.mk acc.reverse]
  | c :: rest, acc =>
      if c == sep then String.mk acc.reverse :: splitOnCharAux sep rest []
      else splitOnCharAux sep rest (c :: acc)

/-- Python `s.split('-')`. -/
def pySplitDash (s : String) : List String := splitOnCharAux '-' s.data []

/-- Free-text clinical fields whose "none"-style answers are discarded
(`text_input_medical_fields`, app_new.py lines 890-893). -/
def text_input_medical_fields : List String :=
  ["infection_type", "medical_condition", "symptoms",
   "complications", "allergies", "current_medications", "ecg_findings"]

/-- The negation words rejected for those fields (app_new.py line 898). -/
def medical_none_words : List String :=
  ["none", "no", "normal", "n/a", "na", "not applicable", "nil", "nothing"]

/-- `is_valid_value(value, field_name)` (app_new.py lines 871-916): decides
whether a field survives the validity filter. -/
def is_valid_value (value : PyVal) (field_name : String) : Bool :=
  match value with
  | .none => false
  | .str s =>
      let cv := pyLower (pyStrip s)
      if cv = "" then false
      else if text_input_medical_fields.contains field_name
              && medical_none_words.contains cv then false
      else if field_name = "ecg_available" && cv = "no" then true
      else true
  | .dict fields => !fields.isEmpty
  | .list elems => !elems.isEmpty
  | _ => true

/-- `clean_value` (app_new.py lines 865-869): strips a trailing "-A" or
"-O" category suffix from string values. -/
def clean_value : PyVal → PyVal
  | .str s => if pyEndsWith s "-A" || pyEndsWith s "-O" then .str (pyDropRight s 2) else .str s
  | v => v

/-- The form/AI cleaning loop (app_new.py lines 918-942): keep only valid
values, applying `clean_value` to each kept value. -/
def clean_filter (data : List (String × PyVal)) : List (String × PyVal) :=
  data.filterMap (fun kv => if is_valid_value kv.2 kv.1 then some (kv.1, clean_value kv.2) else Option.none)

/-- The files cleaning loop (app_new.py lines 945-949): keep only valid
values, without `clean_value`. -/
def files_filter (data : List (String × PyVal)) : List (String × PyVal) :=
  data.filter (fun kv => is_valid_value kv.2 kv.1)

/-- Python `d[k] = v` on a dict: overwrite the existing entry in place when
the key exists, append at the end otherwise. -/
def dictSet : List (String × PyVal) → String → PyVal → List (String × PyVal)
  | [], k, v => [(k, v)]
  | (k', v') :: rest, k, v =>
      if k' = k then (k, v) :: rest else (k', v') :: dictSet rest k v

/-- Python `merged = existing.copy(); merged.update(new)` (app_new.py lines
1065-1066). -/
def dict_update (old new : List (String × PyVal)) : List (String × PyVal) :=
  new.foldl (fun acc kv => dictSet acc kv.1 kv.2) old

/-- One `stepN` record of the per-session file, mirroring the dict literals
written at app_new.py lines 966-1082.  `custom_medical_images` is `some`
exactly when the record was written by the step-3 branch (only that branch
adds the key). -/
structure StepRecord where
  step_name : String
  form_data : List (String × PyVal)
  ai_generated_data : List (String × PyVal)
  files_uploaded : List (String × PyVal)
  custom_medical_images : Option (List PyVal)
  timestamp : String
  data_source : String
  step_completed : Bool

/-- The per-session JSON file (`patient_data_<session>.json`).  A `stepN`
field is `none` when the stored section is the empty dict `{}`.
`top_session_id` is the legacy top-level `session_id` key, present only in
files migrated from the old session structure; files created by
`save_step_based_patient_data` hold the session id inside `session_info`
only. -/
structure FileState where
  session_info_session_id : String
  top_session_id : Option String
  step1 : Option StepRecord
  step2 : Option StepRecord
  step3 : Option StepRecord
  step4 : Option StepRecord
  step5 : Option StepRecord
  step6 : Option StepRecord
  step7 : Option StepRecord
  step_completed : Nat

/-- `get_step_data(step_number)` (app_new.py lines 1117-1133), as a read of
the file state. -/
def get_step_data (f : FileState) : Nat → Option StepRecord
  | 1 => f.step1
  | 2 => f.step2
  | 3 => f.step3
  | 4 => f.step4
  | 5 => f.step5
  | 6 => f.step6
  | 7 => f.step7
  | _ => Option.none

/-- The step-3 custom-image filter (app_new.py lines 996-1001): keep dict
entries with a non-empty `filename`. -/
def filter_custom_images (imgs : List PyVal) : List PyVal :=
  imgs.filter (fun v =>
    match v with
    | .dict fields =>
        match alookup fields "filename" with
        | some (.str s) => s ≠ ""
        | some PyVal.none => false
        | some _ => true
        | Option.none => false
    | _ => false)

/-- `save_step_based_patient_data(step_number, form_data, ai_data,
files_data, custom_medical_images)` (app_new.py lines 793-1109), restricted
to its effect on the file state.  Steps 1-6 replace the whole record; step 7
merges `form_data` into the existing record's `form_data` while replacing
the other containers; finally `step_completed` is advanced to
`max(step_completed, step_number)` (line 1096).  Disk-write success is not
modelled (the write is assumed to succeed). -/
def save_step_based_patient_data (now : String) (f : FileState) (step_number : Nat)
    (form_data ai_data files_data : List (String × PyVal))
    (custom_medical_images : List PyVal) : FileState :=
  let cleaned_form_data := clean_filter form_data
  let cleaned_ai_data := clean_filter ai_data
  let cleaned_files_data := files_filter files_data
  let f' : FileState :=
    match step_number with
    | 1 => { f with step1 := some ⟨"Case Category Selection", cleaned_form_data,
              cleaned_ai_data, cleaned_files_data, Option.none, now, "user_input", true⟩ }
    | 2 => { f with step2 := some ⟨"Patient Registration", cleaned_form_data,
              cleaned_ai_data, cleaned_files_data, Option.none, now, "user_input_and_extraction", true⟩ }
    | 3 => { f with step3 := some ⟨"Vital Signs & Medical Photos", cleaned_form_data,
              cleaned_ai_data, cleaned_files_data,
              some (filter_custom_images custom_medical_images), now,
              "user_input_and_analysis", true⟩ }
    | 4 => { f with step4 := some ⟨"Medical Records & Contact Information", cleaned_form_data,
              cleaned_ai_data, cleaned_files_data, Option.none, now, "user_input_and_analysis", true⟩ }
    | 5 => { f with step5 := some ⟨"Complaints & Symptoms", cleaned_form_data,
              cleaned_ai_data, cleaned_files_data, Option.none, now, "user_input_and_ai_analysis", true⟩ }
    | 6 => { f with step6 := some ⟨"Analysis & Diagnosis", cleaned_form_data,
              cleaned_ai_data, cleaned_files_data, Option.none, now, "ai_analysis", true⟩ }
    | 7 =>
        let existing_form_data :=
          match f.step7 with
          | some r => r.form_data
          | Option.none => []
        let merged_form_data := dict_update existing_form_data cleaned_form_data
        { f with step7 := some ⟨"ICD11 Code Generation & Analysis", merged_form_data,
            cleaned_ai_data, cleaned_files_data, Option.none, now, "icd_generation", true⟩ }
    | _ => f
  { f' with step_completed := max f.step_completed step_number }

/-- `validate_session_step(required_step)` (app_new.py lines 437-456) reads
the file's `step_completed`.  (The emptiness check on the file is not
modelled: a `FileState` always denotes an existing session file.) -/
def validate_session_step (f : FileState) (required_step : Nat) : Bool :=
  decide (required_step ≤ f.step_completed)

/-- The legacy Flask-session dict `session['patient_data']` initialised at
app_new.py lines 384-405: the old per-section containers plus its own copy
of `step_completed`. -/
structure SessionLegacy where
  case_category : List (String × PyVal)
  registration : List (String × PyVal)
  vitals : List (String × PyVal)
  follow_up_questions : List (String × PyVal)
  complaints : List (String × PyVal)
  complaint_analysis : List (String × PyVal)
  diagnosis : List (String × PyVal)
  step_completed : Nat

/-- `invalidate_downstream_steps(from_step)` (app_new.py lines 1498-1542).
It operates on `session['patient_data']` — the legacy session dict — not on
the step-based file: it clears the legacy sections after `from_step` and
resets the session copy of `step_completed` to `from_step`. -/
def invalidate_downstream_steps (s : SessionLegacy) (from_step : Nat) : SessionLegacy :=
  let s' :=
    if from_step ≤ 1 then
      { s with registration := [], vitals := [], follow_up_questions := [],
               complaints := [], complaint_analysis := [], diagnosis := [] }
    else if from_step ≤ 2 then
      { s with vitals := [], follow_up_questions := [],
               complaints := [], complaint_analysis := [], diagnosis := [] }
    else if from_step ≤ 3 then
      { s with follow_up_questions := [],
               complaints := [], complaint_analysis := [], diagnosis := [] }
    else if from_step ≤ 4 then
      { s with complaints := [], complaint_analysis := [], diagnosis := [] }
    else if from_step ≤ 5 then
      { s with complaint_analysis := [], diagnosis := [] }
    else if from_step ≤ 6 then
      { s with diagnosis := [] }
    else s
  { s' with step_completed := from_step }

/-- The combined application state: the per-session file plus the legacy
session dict. -/
structure AppState where
  file : FileState
  sess : SessionLegacy

/-- `save_registration` (app_new.py lines 1605-1694), reduced to its state
transformation: validate step 1, detect modification from the existing
step-2 file record, save step 2 through `save_step_based_patient_data`,
invalidate downstream legacy sections when modifying, and finally set the
session copy of `step_completed` to 2.  Returns the route's success flag
with the new state. -/
def save_registration (now : String) (st : AppState)
    (form_data ai_data files_data : List (String × PyVal)) : Bool × AppState :=
  if !validate_session_step st.file 1 then (false, st)
  else
    let is_modification := (get_step_data st.file 2).isSome
    let file' := save_step_based_patient_data now st.file 2 form_data ai_data files_data []
    let sess' := if is_modification then invalidate_downstream_steps st.sess 2 else st.sess
    let sess'' := { sess' with step_completed := 2 }
    (true, { file := file', sess := sess'' })

/-- A diagnosis candidate as exchanged with the narrowing routes: the
`{code, title, confidence}` dicts of the `icd_codes` payload. -/
structure Candidate where
  code : String
  title : String
  confidence : Nat
deriving DecidableEq

/-- One entry of `elimination_history`. -/
structure EliminationEvent where
  question : String
  answer : String
  eliminated_code : String
  reasoning : String
deriving DecidableEq

/-- Generic route outcome: a JSON success payload or a
`{'success': False, 'error': ...}` response. -/
inductive RouteResult (α : Type) where
  | ok (value : α)
  | err (message : String)
deriving DecidableEq

/-- The reasoning-service outcome seen by
`generate_differential_question_with_llm` after JSON parsing: either the
parsed fields (`success`, `question`, `target_code_to_eliminate`,
`reasoning`, `answer_options`) or a thrown failure (network error,
unparseable response). -/
inductive LLMQuestionOutcome where
  | parsed (success : Bool) (question : String) (target_code_to_eliminate : String)
      (reasoning : String) (answer_options : List String)
  | failure

/-- The dict returned by `generate_differential_question_with_llm`. -/
structure QuestionLLMResult where
  success : Bool
  question : String
  target_code_to_eliminate : String
  reasoning : String
  answer_options : List String
deriving DecidableEq

/-- The stop words of the question-similarity check (app_new.py line
5646). -/
def question_stop_words : List String :=
  ["the", "is", "at", "which", "on", "a", "an", "and", "or", "but", "in", "with",
   "to", "for", "of", "as", "by", "do", "does", "did", "you", "your", "have",
   "has", "had", "this", "that", "these", "those"]

/-- `question.lower().split()`. -/
def question_words (q : String) : List String :=
  pyWords (pyLower q)

/-- `len(meaningful_common)` for two questions (app_new.py lines
5641-5647): distinct shared words minus stop words. -/
def meaningful_common_count (new_q prev_q : String) : Nat :=
  ((question_words new_q).eraseDups.filter
    (fun w => (question_words prev_q).contains w && !question_stop_words.contains w)).length

/-- `generate_differential_question_with_llm` (app_new.py lines 5536-5674),
with the reasoning-service call abstracted as `llm`.  Prompt construction is
not modelled (it only feeds the oracle).  The similarity check appends a
note to the reasoning per similar previous question; an invalid (empty or
unknown) target code triggers the deterministic fallback to the first
remaining candidate with a fixed fallback reasoning. -/
def generate_differential_question_with_llm (llm : LLMQuestionOutcome)
    (icd_codes : List Candidate) (elimination_history : List EliminationEvent) :
    Option QuestionLLMResult :=
  let current_codes := icd_codes.map (fun c => c.code)
  match llm with
  | .failure => Option.none
  | .parsed success question target reasoning answer_options =>
      let target_code := pyStrip target
      let new_question := pyStrip question
      let reasoning :=
        if !elimination_history.isEmpty && new_question ≠ "" then
          elimination_history.foldl (fun acc item =>
            let prev_question := pyStrip item.question
            if prev_question ≠ "" && 3 ≤ meaningful_common_count new_question prev_question then
              acc ++ " (Generated with similarity check)"
            else acc) reasoning
        else reasoning
      if target_code = "" || !current_codes.contains target_code then
        some ⟨success, question, current_codes.headD "",
              "Fallback targeting due to invalid LLM response", answer_options⟩
      else
        some ⟨success, question, target, reasoning, answer_options⟩

/-- The success payload of the `/generate_differential_question` route. -/
structure QuestionRouteOk where
  question : String
  target_code_to_eliminate : String
  reasoning : String
  answer_options : List String
deriving DecidableEq

/-- The `/generate_differential_question` route (app_new.py lines
5411-5453): refuses when 2 or fewer candidates remain, otherwise delegates
to `generate_differential_question_with_llm` and unwraps the result.  The
route reads no session state, so a refusal mutates nothing. -/
def generate_differential_question (llm : LLMQuestionOutcome)
    (remaining_icd_codes : List Candidate) (elimination_history : List EliminationEvent) :
    RouteResult QuestionRouteOk :=
  if remaining_icd_codes.length ≤ 2 then
    .err "Cannot eliminate more codes. Already at target of 2 codes."
  else
    match generate_differential_question_with_llm llm remaining_icd_codes elimination_history with
    | Option.none => .err "Failed to generate differential question"
    | some qr =>
        if !qr.success then .err "Failed to generate differential question"
        else .ok ⟨qr.question, qr.target_code_to_eliminate, qr.reasoning, qr.answer_options⟩

/-- The reasoning-service outcome seen by `process_answer_with_llm` after
JSON parsing: the parsed fields, or a thrown failure. -/
inductive LLMAnswerOutcome where
  | parsed (success : Bool) (eliminated_code : String) (reasoning : String)
  | failure

/-- The dict returned by `process_answer_with_llm`. -/
structure ElimLLMResult where
  success : Bool
  eliminated_code : String
  reasoning : String
deriving DecidableEq

/-- `process_answer_with_llm` (app_new.py lines 5676-5758).  An invalid
(empty or unknown) eliminated code falls back to the original target code
when that is still a current candidate, else to the last candidate in the
list; a thrown failure falls back to the last candidate (or `None` when the
list is empty — Python returns `None` there because the emergency fallback
needs a non-empty list). -/
def process_answer_with_llm (llm : LLMAnswerOutcome) (icd_codes : List Candidate)
    (target_code_to_eliminate : String) : Option ElimLLMResult :=
  let current_codes := icd_codes.map (fun c => c.code)
  match llm with
  | .parsed success ec reasoning =>
      let eliminated_code := pyStrip ec
      if eliminated_code = "" || !current_codes.contains eliminated_code then
        if target_code_to_eliminate ≠ "" && current_codes.contains target_code_to_eliminate then
          some ⟨success, target_code_to_eliminate,
                "Fallback elimination of target code due to invalid LLM response"⟩
        else
          match current_codes.getLast? with
          | some last_code =>
              some ⟨success, last_code, "Emergency fallback elimination due to LLM error"⟩
          | Option.none => Option.none
      else
        some ⟨success, eliminated_code, reasoning⟩
  | .failure =>
      match icd_codes.getLast? with
      | some c => some ⟨true, c.code, "Emergency elimination due to system error"⟩
      | Option.none => Option.none

/-- The success payload of the `/process_differential_answer` route. -/
structure ElimRouteOk where
  eliminated_code : String
  updated_icd_codes : List Candidate
  reasoning : String
  remaining_count : Nat
deriving DecidableEq

/-- The `/process_differential_answer` route (app_new.py lines 5455-5534):
refuses when 2 or fewer candidates remain; otherwise asks the reasoning
service which code to remove, validates the returned code against the
current candidate list, removes it, and verifies that exactly one candidate
was removed.  The route reads no session state, so a refusal mutates
nothing. -/
def process_differential_answer (llm : LLMAnswerOutcome)
    (remaining_icd_codes : List Candidate) (target_code_to_eliminate : String) :
    RouteResult ElimRouteOk :=
  if remaining_icd_codes.length ≤ 2 then
    .err "Already at target of 2 or fewer codes. Cannot eliminate more."
  else
    match process_answer_with_llm llm remaining_icd_codes target_code_to_eliminate with
    | Option.none => .err "Failed to process answer"
    | some res =>
        if !res.success then .err "Failed to process answer"
        else
          let eliminated_code := pyStrip res.eliminated_code
          let current_codes := remaining_icd_codes.map (fun c => c.code)
          if !current_codes.contains eliminated_code then
            .err ("Invalid elimination: Code " ++ eliminated_code ++ " not in current list")
          else
            let updated_codes := remaining_icd_codes.filter (fun c => c.code ≠ eliminated_code)
            if updated_codes.length ≠ remaining_icd_codes.length - 1 then
              .err "Elimination verification failed"
            else
              .ok ⟨eliminated_code, updated_codes, res.reasoning, updated_codes.length⟩

/-- A run of successful narrowing rounds within one session: from the
candidate list `cs`, the rounds recorded the eliminated codes `ecs` (in
order) and left the candidate list `cs'`.  Each step is one successful
`/process_differential_answer` call, for some reasoning-service outcome and
target code. -/
inductive NarrowTrace : List Candidate → List String → List Candidate → Prop
  | nil (cs : List Candidate) : NarrowTrace cs [] cs
  | step {cs cs' : List Candidate} {ecs : List String}
      (llm : LLMAnswerOutcome) (target : String) (r : ElimRouteOk)
      (hok : process_differential_answer llm cs target = .ok r)
      (hrest : NarrowTrace r.updated_icd_codes ecs cs') :
      NarrowTrace cs (r.eliminated_code :: ecs) cs'

/-- The dict view of a step record as stored in the file: the exact keys of
the dict literals written at app_new.py lines 966-1082 (steps 1-7; only the
step-3 literal carries `custom_medical_images`). -/
def stepRecordDict (r : StepRecord) : List (String × PyVal) :=
  [("step_name", .str r.step_name),
   ("form_data", .dict r.form_data),
   ("ai_generated_data", .dict r.ai_generated_data),
   ("files_uploaded", .dict r.files_uploaded)]
  ++ (match r.custom_medical_images with
      | some imgs => [("custom_medical_images", .list imgs)]
      | Option.none => [])
  ++ [("timestamp", .str r.timestamp),
      ("data_source", .str r.data_source),
      ("step_completed", .bool r.step_completed)]

/-- The priority weights of the comprehensive diagnosis, in percent (the
source uses the fractions 0.6/0.3/0.1 and 0.6/0.4/0.0; they are exact and
rendered here as percentages). -/
structure Priorities where
  step5 : Nat
  step6 : Nat
  step4 : Nat
deriving DecidableEq

/-- The priority-distribution fragment of `generate_icd_diagnosis`
(app_new.py lines 5986-5999): it reads the key `ai_data` of the step-4
record (`step4_data.get('ai_data', {})`) and then `generated_questions`
inside it, and branches on whether any questions were found.  The inner
wildcard arm is unreachable: the default of the outer `get` is a dict. -/
def icd_priorities (step4_data : Option StepRecord) : Priorities :=
  let step4_questions : PyVal :=
    match step4_data with
    | Option.none => .list []
    | some r =>
        match pyDictGet (stepRecordDict r) "ai_data" (.dict []) with
        | .dict fields => pyDictGet fields "generated_questions" (.list [])
        | _ => .list []
  if 0 < pyLen step4_questions then ⟨60, 30, 10⟩ else ⟨60, 40, 0⟩

/-- Python `str(...)` as used in the duplicate-check f-strings.  The
dict/list arms are unreachable for the gate (the looked-up key is never
present, so the default `''` string is returned) and rendered like JSON
here. -/
def pyStr : PyVal → String
  | .none => "None"
  | .str s => s
  | .int n => toString n
  | .bool b => if b then "True" else "False"
  | .dict _ => ""
  | .list _ => ""

/-- SQL `text LIKE '%pat%'`: substring match, case-insensitive as in
SQLite's default LIKE. -/
def sqlLikeContains (text pat : String) : Bool :=
  strContains (pyLower text) (pyLower pat)

mutual

/-- JSON rendering of a `PyVal` in the style of `json.dumps`: `None` is
`null`, booleans are lowercase, strings are double-quoted (the values
reaching this renderer contain no characters needing escapes).  The
source dumps with `indent=2`; whitespace between items differs here, but
every `"key": value` fragment — all the duplicate-check patterns inspect —
is rendered identically. -/
def pyToJson : PyVal → String
  | .none => "null"
  | .str s => "\"" ++ s ++ "\""
  | .int n => toString n
  | .bool b => if b then "true" else "false"
  | .dict fields => "\x7b" ++ jsonFields fields ++ "\x7d"
  | .list elems => "[" ++ jsonElems elems ++ "]"

def jsonFields : List (String × PyVal) → String
  | [] => ""
  | [(k, v)] => "\"" ++ k ++ "\": " ++ pyToJson v
  | (k, v) :: rest => "\"" ++ k ++ "\": " ++ pyToJson v ++ ", " ++ jsonFields rest

def jsonElems : List PyVal → String
  | [] => ""
  | [v] => pyToJson v
  | v :: rest => pyToJson v ++ ", " ++ jsonElems rest

end

/-- One row of the `cases` table. -/
structure CaseRow where
  case_number : String
  details : String
  status : String
deriving DecidableEq

/-- Python `s.isdigit()` for ASCII strings: non-empty and all digits. -/
def isDigits (s : String) : Bool :=
  s ≠ "" && s.data.all Char.isDigit

/-- Numeric value of a digit string. -/
def natOfDigits (s : String) : Nat :=
  s.data.foldl (fun n c => n * 10 + (c.toNat - 48)) 0

/-- `'%04d' % n`: decimal rendering left-padded with zeros to width 4. -/
def pad4 (n : Nat) : String :=
  let s := toString n
  if s.length < 4 then String.mk (List.replicate (4 - s.length) '0') ++ s else s

/-- `generate_case_number` (app_new.py lines 113-160): scan the cases of the
current year, take the maximum numeric suffix among well-formed
`CASE-<year>-<NNNN>` numbers (ignoring non-numeric legacy suffixes), and
return the next number.  The exception/no-connection fallbacks to a random
suffix are not modelled (the store is always reachable here). -/
def generate_case_number (year : Nat) (store : List CaseRow) : String :=
  let prefix_pattern := "CASE-" ++ toString year ++ "-"
  let results := store.filter (fun c => charListPre (pyLower prefix_pattern).data (pyLower c.case_number).data)
  let max_number := results.foldl (fun acc c =>
    let parts := pySplitDash c.case_number
    match parts.getLast? with
    | some last_part =>
        if 3 ≤ parts.length && isDigits last_part then max acc (natOfDigits last_part) else acc
    | Option.none => acc) 0
  "CASE-" ++ toString year ++ "-" ++ pad4 (max_number + 1)

/-- `ORDER BY case_number DESC LIMIT 1`: the row with the largest
`case_number` (byte order, as in SQLite's default collation). -/
def latest_case_row : List CaseRow → Option CaseRow
  | [] => Option.none
  | c :: rest =>
      match latest_case_row rest with
      | Option.none => some c
      | some best => if compare c.case_number best.case_number = .gt then some c else some best

/-- The completion signal of `save_step7_complete` (app_new.py lines
3990-3994): a non-empty status containing `completed` or `finished` and not
containing `in_progress`. -/
def step7_should_submit (step_status : String) : Bool :=
  step_status ≠ "" &&
  (strContains (pyLower step_status) "completed" || strContains (pyLower step_status) "finished") &&
  !(strContains (pyLower step_status) "in_progress")

/-- Outcome of the automatic case submission. -/
inductive SubmitOutcome where
  | submitted (case_number : String)
  | already_submitted (case_number : String)
  | skipped
deriving DecidableEq

/-- The automatic case-submission gate of `save_step7_complete` (app_new.py
lines 3988-4098).  When the completion signal holds and a step-7 record
exists, it extracts `patient_email` from the top level of the step-7 record
dict (`step7_data.get('patient_email', '')`, line 4006) and `session_id`
from the top level of the file (`patient_data.get('session_id')`, line
4005), searches the cases whose serialized details contain both
`"patient_email": "<email>"` and `"session_id": "<sid>"` (lines 4015-4021),
returns the latest such case without inserting when one exists, and
otherwise inserts a new row holding the JSON dump of the step-7 record. -/
def step7_auto_submit (year : Nat) (store : List CaseRow) (f : FileState)
    (step_status : String) : SubmitOutcome × List CaseRow :=
  if !step7_should_submit step_status then (.skipped, store)
  else
    match f.step7 with
    | Option.none => (.skipped, store)
    | some step7_rec =>
        let patient_email := pyStr (pyDictGet (stepRecordDict step7_rec) "patient_email" (.str ""))
        let session_id :=
          match f.top_session_id with
          | some s => s
          | Option.none => "None"
        let email_pattern := "\"patient_email\": \"" ++ patient_email ++ "\""
        let session_pattern := "\"session_id\": \"" ++ session_id ++ "\""
        let found := store.filter (fun c =>
          sqlLikeContains c.details email_pattern && sqlLikeContains c.details session_pattern)
        match latest_case_row found with
        | some existing => (.already_submitted existing.case_number, store)
        | Option.none =>
            let case_number := generate_case_number year store
            let details := pyToJson (.dict (stepRecordDict step7_rec))
            (.submitted case_number, store ++ [⟨case_number, details, "pending_review"⟩])

/-!
Concrete sessions used to evaluate the operations, and the first lookup
lemmas.
-/

/-- A minimal non-empty step record, as left by an earlier save. -/
def demo_step_record (name key value : String) : StepRecord :=
  ⟨name, [(key, .str value)], [], [], Option.none, "t0", "user_input", true⟩

/-- A session file in which steps 1-5 are completed (`step_completed = 5`),
about to have step 2 edited. -/
def demo_file_before : FileState where
  session_info_session_id := "sess-1"
  top_session_id := Option.none
  step1 := some (demo_step_record "Case Category Selection" "category" "illness")
  step2 := some (demo_step_record "Patient Registration" "full_name" "Pat")
  step3 := some (demo_step_record "Vital Signs & Medical Photos" "blood_pressure" "120over80")
  step4 := some (demo_step_record "Medical Records & Contact Information" "emergency_name" "Sam")
  step5 := some (demo_step_record "Complaints & Symptoms" "complaint_text" "persistent cough")
  step6 := Option.none
  step7 := Option.none
  step_completed := 5

/-- The matching legacy session dict for the same session. -/
def demo_sess_before : SessionLegacy where
  case_category := [("category", .str "illness")]
  registration := [("full_name", .str "Pat")]
  vitals := [("blood_pressure", .str "120over80")]
  follow_up_questions := [("q1", .str "answer1")]
  complaints := [("complaint_text", .str "persistent cough")]
  complaint_analysis := [("analysis", .str "likely viral")]
  diagnosis := []
  step_completed := 5

/-- Resaving step 2 of that session with an edited name. -/
def demo_resave_step2 : Bool × AppState :=
  save_registration "t1" ⟨demo_file_before, demo_sess_before⟩ [("full_name", .str "Pat B")] [] []

/-- A step-4 record whose `ai_generated_data` holds previously generated
follow-up questions, as written by the step-4 save (`ai_data` argument
`{'generated_questions': ...}`, app_new.py lines 3027-3038 and 1019-1027). -/
def demo_step4_record : StepRecord :=
  ⟨"Medical Records & Contact Information",
   [("emergency_name", .str "Sam")],
   [("generated_questions", .list [.dict [("question", .str "Any chest pain?")]])],
   [], Option.none, "t0", "user_input_and_analysis", true⟩

/-- A session file with steps 1-6 done, before the step-7 sub-flows. -/
def demo_file6 : FileState where
  session_info_session_id := "sess-1"
  top_session_id := Option.none
  step1 := Option.none
  step2 := Option.none
  step3 := Option.none
  step4 := Option.none
  step5 := Option.none
  step6 := Option.none
  step7 := Option.none
  step_completed := 6

/-- The contact-capture sub-flow of step 7 (`generate_icd_codes`, app_new.py
lines 5278-5295): the patient email is stored inside the step-7
`form_data`. -/
def demo_file7a : FileState :=
  save_step_based_patient_data "t1" demo_file6 7
    [("icd_generation_completed", .bool true), ("patient_email", .str "pat@example.com"),
     ("contact_info_completed", .bool true)]
    [("icd_codes_generated", .bool true)] [] []

/-- The final step-7 completion save of the same session (merging, so the
contact fields persist). -/
def demo_file7b : FileState :=
  save_step_based_patient_data "t2" demo_file7a 7
    [("step_status", .str "completed")] [("analysis_notes", .str "ready")] [] []

/-- The serialized details snapshot the first submission stores: the JSON
dump of the step-7 record of `demo_file7b`. -/
def demo_details : String :=
  "\x7b\"step_name\": \"ICD11 Code Generation & Analysis\", \"form_data\": \x7b\"icd_generation_completed\": true, \"patient_email\": \"pat@example.com\", \"contact_info_completed\": true, \"step_status\": \"completed\"\x7d, \"ai_generated_data\": \x7b\"analysis_notes\": \"ready\"\x7d, \"files_uploaded\": \x7b\x7d, \"timestamp\": \"t2\", \"data_source\": \"icd_generation\", \"step_completed\": true\x7d"

/-- The case store after the first automatic submission. -/
def demo_store1 : List CaseRow := [⟨"CASE-2025-0001", demo_details, "pending_review"⟩]

/-- Python `a if a is not None else b` composition of two lookups: the
result a step-7 merge is specified against. -/
def olookup (a b : Option PyVal) : Option PyVal :=
  match a with
  | some v => some v
  | Option.none => b

/-- The `existing_form_data` a step-7 save starts from (app_new.py lines
1061-1062): the stored step-7 `form_data`, or empty when no record
exists. -/
def step7_existing_form (f : FileState) : List (String × PyVal) :=
  match f.step7 with
  | some r => r.form_data
  | Option.none => []

/-- Diagnosis candidates for the narrowing scenarios. -/
def candA : Candidate := ⟨"A1", "Condition A", 40⟩

def candB : Candidate := ⟨"B2", "Condition B", 30⟩

def candC : Candidate := ⟨"C3", "Condition C", 20⟩

def candD : Candidate := ⟨"D4", "Condition D", 10⟩

/-- The payload of the first successful demo round: eliminating `B2` from
four candidates. -/
def demo_round1 : ElimRouteOk :=
  ⟨"B2", [candA, candC, candD], "matches the reported timing", 3⟩

/-- The payload of the second successful demo round: eliminating `D4` from
the remaining three. -/
def demo_round2 : ElimRouteOk :=
  ⟨"D4", [candA, candC], "excluded by the answer", 2⟩

/-- A key absent from an association list looks up to nothing. -/
lemma alookup_eq_none {l : List (String × PyVal)} {k : String}
    (h : k ∉ l.map Prod.fst) : alookup l k = Option.none := by
  induction l with
  | nil => rfl
  | cons x t ih =>
      simp only [List.map_cons, List.mem_cons] at h
      push_neg at h
      simp only [alookup]
      rw [if_neg h.1]
      exact ih h.2

/-- Lookup after a Python dict assignment. -/
lemma dictSet_alookup (d : List (String × PyVal)) (a : String) (b : PyVal) (k : String) :
    alookup (dictSet d a b) k = if k = a then some b else alookup d k := by
  induction d with
  | nil => simp [dictSet, alookup]
  | cons x t ih =>
      obtain ⟨xk, xv⟩ := x
      by_cases hx : xk = a
      · subst hx
        simp only [dictSet, if_pos rfl, alookup]
        by_cases hk : k = xk
        · simp [hk]
        · simp [hk]
      · simp only [dictSet, if_neg hx, alookup, ih]
        by_cases hk : k = xk
        · have hka : ¬ k = a := by rw [hk]; exact hx
          simp [hk, hka, hx]
        · simp [hk]

/-- Lookup after a Python `dict.update`: keys of the update win, the rest
fall back to the original dict. -/
lemma dict_update_alookup (new : List (String × PyVal)) (old : List (String × PyVal)) (k : String)
    (h : (new.map Prod.fst).Nodup) :
    alookup (dict_update old new) k = olookup (alookup new k) (alookup old k) := by
  induction new generalizing old with
  | nil => simp [dict_update, alookup, olookup]
  | cons x t ih =>
      obtain ⟨xk, xv⟩ := x
      simp only [List.map_cons, List.nodup_cons] at h
      have step : dict_update old ((xk, xv) :: t) = dict_update (dictSet old xk xv) t := by
        simp [dict_update]
      rw [step, ih _ h.2, dictSet_alookup]
      by_cases hk : k = xk
      · subst hk
        have ht : alookup t k = Option.none := alookup_eq_none (by simpa using h.1)
        simp [ht, alookup, olookup]
      · simp [alookup, hk, olookup]

/-- The validity filter only drops entries, so the key sequence of the
filtered dict is a subsequence of the original one. -/
lemma clean_filter_keys_sublist (l : List (String × PyVal)) :
    ((clean_filter l).map Prod.fst).Sublist (l.map Prod.fst) := by
  induction l with
  | nil => simp [clean_filter]
  | cons x t ih =>
      by_cases hv : is_valid_value x.2 x.1
      · simpa [clean_filter, List.filterMap_cons, hv] using List.Sublist.cons₂ x.1 ih
      · simpa [clean_filter, List.filterMap_cons, hv] using List.Sublist.cons x.1 ih

/-- Inversion of a successful `/process_differential_answer` call: the
round ran on more than two candidates, the eliminated code is one of the
current ones, and the updated list is the current list with exactly that
code filtered out, one candidate shorter. -/
lemma process_differential_answer_ok_spec {llm : LLMAnswerOutcome} {codes : List Candidate}
    {target : String} {r : ElimRouteOk}
    (h : process_differential_answer llm codes target = .ok r) :
    2 < codes.length ∧
    r.eliminated_code ∈ codes.map (fun c => c.code) ∧
    r.updated_icd_codes = codes.filter (fun c => c.code ≠ r.eliminated_code) ∧
    r.updated_icd_codes.length = codes.length - 1 := by
  simp only [process_differential_answer] at h
  split at h
  · exact RouteResult.noConfusion h
  next hlen =>
    split at h
    · exact RouteResult.noConfusion h
    next res hproc =>
      split at h
      · exact RouteResult.noConfusion h
      next hsucc =>
        split at h
        · exact RouteResult.noConfusion h
        next hmem =>
          split at h
          · exact RouteResult.noConfusion h
          next hver =>
            cases h
            refine ⟨Nat.lt_of_not_le (by simpa using hlen), ?_, rfl, ?_⟩
            · simpa using hmem
            · simpa using hver

/-- Every code a trace eliminates was a member of its initial candidate
list. -/
lemma narrow_trace_mem_init {cs : List Candidate} {ecs : List String} {cs' : List Candidate}
    (h : NarrowTrace cs ecs cs') :
    ∀ e ∈ ecs, e ∈ cs.map (fun c => c.code) := by
  induction h with
  | nil => simp
  | step llm target r hok hrest ih =>
      intro e he
      rcases List.mem_cons.mp he with rfl | hmem
      · exact (process_differential_answer_ok_spec hok).2.1
      · have hu := ih e hmem
        have hfilter := (process_differential_answer_ok_spec hok).2.2.1
        rw [hfilter] at hu
        rcases List.mem_map.mp hu with ⟨c, hc, rfl⟩
        exact List.mem_map.mpr ⟨c, (List.mem_filter.mp hc).1, rfl⟩

/-- No code is eliminated twice within one trace: each round validates its
code against the current, already-shrunk candidate list. -/
lemma narrow_trace_nodup {cs : List Candidate} {ecs : List String} {cs' : List Candidate}
    (h : NarrowTrace cs ecs cs') : ecs.Nodup := by
  induction h with
  | nil => exact List.nodup_nil
  | step llm target r hok hrest ih =>
      refine List.nodup_cons.mpr ⟨?_, ih⟩
      intro hmem
      have h1 := narrow_trace_mem_init hrest _ hmem
      have hfilter := (process_differential_answer_ok_spec hok).2.2.1
      rw [hfilter] at h1
      rcases List.mem_map.mp h1 with ⟨c, hc, hcode⟩
      have h2 := (List.mem_filter.mp hc).2
      simp at h2
      exact h2 hcode

/-- Each successful round removes exactly one candidate, so the final size
plus the number of rounds equals the initial size. -/
lemma narrow_trace_length {cs : List Candidate} {ecs : List String} {cs' : List Candidate}
    (h : NarrowTrace cs ecs cs') : cs'.length + ecs.length = cs.length := by
  induction h with
  | nil => simp
  | step llm target r hok hrest ih =>
      have hspec := process_differential_answer_ok_spec hok
      have h1 := hspec.1
      have h2 := hspec.2.2.2
      simp only [List.length_cons]
      omega

/-- A concrete two-round narrowing run: `[A1, B2, C3, D4]` loses `B2`, then
`D4`, ending at `[A1, C3]`. -/
lemma demo_narrow_trace :
    NarrowTrace [candA, candB, candC, candD] ["B2", "D4"] [candA, candC] :=
  .step (.parsed true "B2" "matches the reported timing") "B2" demo_round1 (by rfl)
    (.step (.parsed true "D4" "excluded by the answer") "D4" demo_round2 (by rfl)
      (.nil _))

/-- C1: resaving step 2 after step 5 was completed is claimed to reset the
stored records of steps 3-5 to empty and rewind `step_completed` to 2.  On
the code, the invalidation cascade touches only the legacy session dict:
after the resave, the persisted step 3-5 records are unchanged and still
present, and the persisted `step_completed` (the one `validate_session_step`
gates on) is still 5; only the legacy session sections are cleared and only
the session copy of `step_completed` becomes 2. -/
theorem resave_step2_keeps_downstream_file_records :
    demo_resave_step2.1 = true ∧
    demo_resave_step2.2.file.step3 = demo_file_before.step3 ∧
    demo_resave_step2.2.file.step4 = demo_file_before.step4 ∧
    demo_resave_step2.2.file.step5 = demo_file_before.step5 ∧
    demo_resave_step2.2.file.step3.isSome = true ∧
    demo_resave_step2.2.file.step4.isSome = true ∧
    demo_resave_step2.2.file.step5.isSome = true ∧
    demo_resave_step2.2.file.step_completed = 5 ∧
    demo_resave_step2.2.sess.vitals = [] ∧
    demo_resave_step2.2.sess.step_completed = 2 :=
  ⟨rfl, rfl, rfl, rfl, rfl, rfl, rfl, rfl, rfl, rfl⟩

/-- C9: every save advances the persisted `step_completed` to the maximum of
its previous value and the saved step number, so the persisted value never
decreases; but the invalidation cascade does not rewind it — after the
concrete cascade of `demo_resave_step2` the persisted value is still 5,
while only the legacy session copy is 2. -/
theorem step_completed_monotone_cascade_misses_file :
    (∀ (now : String) (f : FileState) (n : Nat) (fo ai fi : List (String × PyVal))
        (ci : List PyVal),
        (save_step_based_patient_data now f n fo ai fi ci).step_completed =
          max f.step_completed n) ∧
    (∀ (now : String) (f : FileState) (n : Nat) (fo ai fi : List (String × PyVal))
        (ci : List PyVal),
        f.step_completed ≤ (save_step_based_patient_data now f n fo ai fi ci).step_completed) ∧
    demo_resave_step2.2.file.step_completed = 5 ∧
    demo_resave_step2.2.sess.step_completed = 2 :=
  ⟨fun _ _ _ _ _ _ _ => rfl,
   fun _ _ _ _ _ _ _ => Nat.le_max_left _ _,
   rfl, rfl⟩

/-- C6: the priority-weight selection reads the key `ai_data` of the step-4
record, but saved step-4 records store the generated questions under
`ai_generated_data`; the key is never present, so the weights are
60/40/0 for every step-4 record — also for `demo_step4_record`, whose
`ai_generated_data` does contain a non-empty `generated_questions` list and
for which the claim expects 60/30/10. -/
theorem icd_priority_weights_never_use_step4 :
    (∀ r : StepRecord, icd_priorities (some r) = ⟨60, 40, 0⟩) ∧
    icd_priorities Option.none = ⟨60, 40, 0⟩ ∧
    0 < pyLen (pyDictGet demo_step4_record.ai_generated_data "generated_questions" (.list [])) ∧
    icd_priorities (some demo_step4_record) = ⟨60, 40, 0⟩ := by
  refine ⟨?_, rfl, by decide, by decide⟩
  intro r
  rcases r with ⟨n, fo, ai, fi, cmi, ts, ds, sc⟩
  cases cmi <;> simp [icd_priorities, stepRecordDict, pyDictGet, alookup, pyLen]

/-- C10: a resave of step 7 merges only `form_data`; the stored
`ai_generated_data` and `files_uploaded` containers are replaced wholesale
by the newly filtered payloads, so a save that supplies none loses the
earlier step-7 AI results and file metadata. -/
theorem step7_resave_replaces_ai_and_files :
    (∀ (now : String) (f : FileState) (fo ai fi : List (String × PyVal)) (ci : List PyVal),
        ∃ rec : StepRecord,
          get_step_data (save_step_based_patient_data now f 7 fo ai fi ci) 7 = some rec ∧
          rec.ai_generated_data = clean_filter ai ∧
          rec.files_uploaded = files_filter fi) ∧
    (∀ (now : String) (f : FileState) (fo : List (String × PyVal)) (ci : List PyVal),
        ∃ rec : StepRecord,
          get_step_data (save_step_based_patient_data now f 7 fo [] [] ci) 7 = some rec ∧
          rec.ai_generated_data = [] ∧
          rec.files_uploaded = []) :=
  ⟨fun _ _ _ _ _ _ => ⟨_, rfl, rfl, rfl⟩,
   fun _ _ _ _ => ⟨_, rfl, rfl, rfl⟩⟩

/-- C5: the automatic submission gate searches existing cases with the
patterns built from the top-level `patient_email` of the step-7 record
(always absent — the contact is inside `form_data`) and the top-level
`session_id` of the file (absent in step-based files).  Its own stored
snapshot contains neither search pattern, so a second submission of the
same session and contact does not find the first case: it inserts a second
row under a fresh case number instead of returning the first one. -/
theorem submit_twice_creates_two_cases :
    demo_file7b.step7.map (fun r => alookup r.form_data "patient_email") =
      some (some (.str "pat@example.com")) ∧
    step7_auto_submit 2025 [] demo_file7b "completed" =
      (.submitted "CASE-2025-0001", demo_store1) ∧
    step7_auto_submit 2025 demo_store1 demo_file7b "completed" =
      (.submitted "CASE-2025-0002", demo_store1 ++ [⟨"CASE-2025-0002", demo_details, "pending_review"⟩]) ∧
    strContains demo_details "\"patient_email\": \"pat@example.com\"" = true ∧
    strContains (pyLower demo_details) "\"patient_email\": \"\"" = false ∧
    strContains (pyLower demo_details) "\"session_id\": " = false := by
  set_option maxRecDepth 400000 in
  exact ⟨rfl, by decide, by decide, by decide, by decide, by decide⟩

/-- C8: the field-validity filter drops `None`, empty/whitespace-only
strings, empty containers, and — only for the fixed free-text clinical
fields — the negation words; `ecg_available` with value "no" is retained;
and the scenario `{"infection_type": "none", "ecg_available": "no",
"notes": ""}` keeps exactly `ecg_available = "no"`. -/
theorem field_validity_filter_behavior :
    (∀ fname : String, is_valid_value PyVal.none fname = false) ∧
    (∀ fname s : String, pyStrip s = "" → is_valid_value (.str s) fname = false) ∧
    (∀ fname : String, is_valid_value (.dict []) fname = false) ∧
    (∀ fname : String, is_valid_value (.list []) fname = false) ∧
    (∀ fname w : String,
        text_input_medical_fields.contains fname = true →
        medical_none_words.contains (pyLower (pyStrip w)) = true →
        is_valid_value (.str w) fname = false) ∧
    (∀ fname w : String,
        text_input_medical_fields.contains fname = false →
        medical_none_words.contains (pyLower (pyStrip w)) = true →
        is_valid_value (.str w) fname = true) ∧
    is_valid_value (.str "no") "ecg_available" = true ∧
    clean_filter [("infection_type", .str "none"), ("ecg_available", .str "no"), ("notes", .str "")] =
      [("ecg_available", .str "no")] := by
  refine ⟨fun _ => rfl, ?_, fun _ => rfl, fun _ => rfl, ?_, ?_, by decide, rfl⟩
  · intro fname s h
    have hcv : pyLower (pyStrip s) = "" := by rw [h]; rfl
    simp [is_valid_value, hcv]
  · intro fname w h1 h2
    have hne : ¬ pyLower (pyStrip w) = "" := by
      intro he
      rw [he] at h2
      exact absurd h2 (by decide)
    have h1m : fname ∈ text_input_medical_fields := by simpa using h1
    have h2m : pyLower (pyStrip w) ∈ medical_none_words := by simpa using h2
    simp [is_valid_value, hne, h1m, h2m]
  · intro fname w h1 h2
    have hne : ¬ pyLower (pyStrip w) = "" := by
      intro he
      rw [he] at h2
      exact absurd h2 (by decide)
    have h1m : fname ∉ text_input_medical_fields := by simpa using h1
    simp [is_valid_value, hne, h1m]

/-- Witness for C8 at concrete fields and values. -/
theorem field_validity_filter_behavior_witness :
    is_valid_value PyVal.none "x" = false ∧
    is_valid_value (.str "   ") "notes" = false ∧
    is_valid_value (.dict []) "bundle" = false ∧
    is_valid_value (.list []) "items" = false ∧
    is_valid_value (.str " None ") "infection_type" = false ∧
    is_valid_value (.str "none") "lung_congestion" = true :=
  ⟨field_validity_filter_behavior.1 "x",
   field_validity_filter_behavior.2.1 "notes" "   " (by decide),
   field_validity_filter_behavior.2.2.1 "bundle",
   field_validity_filter_behavior.2.2.2.1 "items",
   field_validity_filter_behavior.2.2.2.2.1 "infection_type" " None " (by decide) (by decide),
   field_validity_filter_behavior.2.2.2.2.2.1 "lung_congestion" "none" (by decide) (by decide)⟩

/-- C4: for steps 1-6 a resave replaces `form_data`, `ai_generated_data`
and `files_uploaded` wholesale with the newly filtered payloads,
independently of the previous record; for step 7, `form_data` is merged:
a key of the new filtered payload wins, any other existing key keeps its
previous value. -/
theorem step_save_replace_and_merge_policy :
    (∀ (now : String) (f : FileState) (n : Nat), 1 ≤ n → n ≤ 6 →
        ∀ (fo ai fi : List (String × PyVal)) (ci : List PyVal),
          ∃ rec : StepRecord,
            get_step_data (save_step_based_patient_data now f n fo ai fi ci) n = some rec ∧
            rec.form_data = clean_filter fo ∧
            rec.ai_generated_data = clean_filter ai ∧
            rec.files_uploaded = files_filter fi) ∧
    (∀ (now : String) (f : FileState) (fo ai fi : List (String × PyVal)) (ci : List PyVal),
        (fo.map Prod.fst).Nodup →
        ∀ k : String,
          ∃ rec : StepRecord,
            get_step_data (save_step_based_patient_data now f 7 fo ai fi ci) 7 = some rec ∧
            alookup rec.form_data k =
              olookup (alookup (clean_filter fo) k) (alookup (step7_existing_form f) k)) := by
  constructor
  · intro now f n h1 h6 fo ai fi ci
    interval_cases n <;> exact ⟨_, rfl, rfl, rfl, rfl⟩
  · intro now f fo ai fi ci hnd k
    refine ⟨_, rfl, ?_⟩
    have hnd' : ((clean_filter fo).map Prod.fst).Nodup :=
      (clean_filter_keys_sublist fo).nodup hnd
    exact dict_update_alookup _ _ _ hnd'

/-- Witness for C4: a step-2 resave replaces the containers, and the final
step-7 save of the demo session preserves the previously saved
`patient_email` absent from the new payload. -/
theorem step_save_replace_and_merge_policy_witness :
    (∃ rec : StepRecord,
        get_step_data (save_step_based_patient_data "t1" demo_file_before 2
            [("full_name", PyVal.str "Pat B")] [] [] []) 2 = some rec ∧
        rec.form_data = clean_filter [("full_name", PyVal.str "Pat B")] ∧
        rec.ai_generated_data = clean_filter [] ∧
        rec.files_uploaded = files_filter []) ∧
    (∃ rec : StepRecord,
        get_step_data (save_step_based_patient_data "t2" demo_file7a 7
            [("step_status", PyVal.str "completed")] [] [] []) 7 = some rec ∧
        alookup rec.form_data "patient_email" =
          olookup (alookup (clean_filter [("step_status", PyVal.str "completed")]) "patient_email")
            (alookup (step7_existing_form demo_file7a) "patient_email")) :=
  ⟨step_save_replace_and_merge_policy.1 "t1" demo_file_before 2 (by decide) (by decide)
      [("full_name", PyVal.str "Pat B")] [] [] [],
   step_save_replace_and_merge_policy.2 "t2" demo_file7a
      [("step_status", PyVal.str "completed")] [] [] [] (by decide) "patient_email"⟩

/-- C2: a successful narrowing round removes exactly one candidate — the
updated list is one shorter, the eliminated code was a member of the input
list and is gone from the updated list — and over any run of successful
rounds within a session no code is eliminated twice. -/
theorem narrowing_round_removes_exactly_one :
    (∀ (llm : LLMAnswerOutcome) (codes : List Candidate) (target : String) (r : ElimRouteOk),
        process_differential_answer llm codes target = .ok r →
        r.updated_icd_codes.length + 1 = codes.length ∧
        r.eliminated_code ∈ codes.map (fun c => c.code) ∧
        r.eliminated_code ∉ r.updated_icd_codes.map (fun c => c.code)) ∧
    (∀ (cs : List Candidate) (ecs : List String) (cs' : List Candidate),
        NarrowTrace cs ecs cs' → ecs.Nodup) := by
  constructor
  · intro llm codes target r h
    have hspec := process_differential_answer_ok_spec h
    have h1 := hspec.1
    have h4 := hspec.2.2.2
    refine ⟨by omega, hspec.2.1, ?_⟩
    rw [hspec.2.2.1]
    intro hmem
    rcases List.mem_map.mp hmem with ⟨c, hc, hcode⟩
    have h2 := (List.mem_filter.mp hc).2
    simp at h2
    exact h2 hcode
  · intro cs ecs cs' h
    exact narrow_trace_nodup h

/-- Witness for C2 at the first demo round and the demo trace. -/
theorem narrowing_round_removes_exactly_one_witness :
    (demo_round1.updated_icd_codes.length + 1 = [candA, candB, candC, candD].length ∧
     demo_round1.eliminated_code ∈ [candA, candB, candC, candD].map (fun c => c.code) ∧
     demo_round1.eliminated_code ∉ demo_round1.updated_icd_codes.map (fun c => c.code)) ∧
    (["B2", "D4"] : List String).Nodup :=
  ⟨narrowing_round_removes_exactly_one.1 (.parsed true "B2" "matches the reported timing")
      [candA, candB, candC, candD] "B2" demo_round1 (by rfl),
   narrowing_round_removes_exactly_one.2 _ _ _ demo_narrow_trace⟩

/-- C3: after exactly `k - 2` successful rounds from `k > 2` candidates the
list has size 2, and both routes refuse (returning an error payload, with
no state touched) once 2 or fewer candidates remain. -/
theorem narrowing_terminates_at_two :
    (∀ (cs : List Candidate) (ecs : List String) (cs' : List Candidate),
        NarrowTrace cs ecs cs' → 2 < cs.length → ecs.length = cs.length - 2 →
        cs'.length = 2) ∧
    (∀ (llm : LLMQuestionOutcome) (codes : List Candidate) (hist : List EliminationEvent),
        codes.length ≤ 2 →
        generate_differential_question llm codes hist =
          .err "Cannot eliminate more codes. Already at target of 2 codes.") ∧
    (∀ (llm : LLMAnswerOutcome) (codes : List Candidate) (target : String),
        codes.length ≤ 2 →
        process_differential_answer llm codes target =
          .err "Already at target of 2 or fewer codes. Cannot eliminate more.") := by
  refine ⟨?_, ?_, ?_⟩
  · intro cs ecs cs' h h2 hk
    have := narrow_trace_length h
    omega
  · intro llm codes hist h
    simp [generate_differential_question, h]
  · intro llm codes target h
    simp [process_differential_answer, h]

/-- Witness for C3: the two-round demo trace from four candidates ends at
size 2, and both routes refuse on a two-candidate list. -/
theorem narrowing_terminates_at_two_witness :
    ([candA, candC] : List Candidate).length = 2 ∧
    generate_differential_question .failure [candA, candC] [] =
      .err "Cannot eliminate more codes. Already at target of 2 codes." ∧
    process_differential_answer .failure [candA, candC] "A1" =
      .err "Already at target of 2 or fewer codes. Cannot eliminate more." :=
  ⟨narrowing_terminates_at_two.1 _ _ _ demo_narrow_trace (by decide) (by decide),
   narrowing_terminates_at_two.2.1 .failure [candA, candC] [] (by decide),
   narrowing_terminates_at_two.2.2 .failure [candA, candC] "A1" (by decide)⟩

/-- C7: deterministic recovery when the reasoning service names a code
outside the current candidate set — question generation targets the first
remaining candidate and sets the fallback reasoning text; answer processing
eliminates the original target code when it is still a current candidate,
and otherwise the last candidate in the list. -/
theorem reasoning_fallbacks_deterministic :
    (∀ (success : Bool) (q target reasoning : String) (opts : List String)
        (c : Candidate) (rest : List Candidate) (hist : List EliminationEvent),
        pyStrip target ∉ (c :: rest).map (fun x => x.code) →
        generate_differential_question_with_llm (.parsed success q target reasoning opts) (c :: rest) hist =
          some ⟨success, q, c.code, "Fallback targeting due to invalid LLM response", opts⟩) ∧
    (∀ (success : Bool) (ec reasoning target : String) (codes : List Candidate),
        pyStrip ec ∉ codes.map (fun x => x.code) →
        target ≠ "" → target ∈ codes.map (fun x => x.code) →
        process_answer_with_llm (.parsed success ec reasoning) codes target =
          some ⟨success, target, "Fallback elimination of target code due to invalid LLM response"⟩) ∧
    (∀ (success : Bool) (ec reasoning target : String) (c : Candidate) (rest : List Candidate),
        pyStrip ec ∉ (c :: rest).map (fun x => x.code) →
        target ∉ (c :: rest).map (fun x => x.code) →
        ∃ res : ElimLLMResult,
          process_answer_with_llm (.parsed success ec reasoning) (c :: rest) target = some res ∧
          some res.eliminated_code = ((c :: rest).map (fun x => x.code)).getLast?) := by
  refine ⟨?_, ?_, ?_⟩
  · intro success q target reasoning opts c rest hist hmem
    have hcontains : ((c :: rest).map (fun x => x.code)).contains (pyStrip target) = false := by
      simpa using hmem
    simp only [generate_differential_question_with_llm]
    split
    · simp
    next h1 =>
      exact absurd (by rw [hcontains]; simp) h1
  · intro success ec reasoning target codes hmem hne htgt
    have hcontains : (codes.map (fun x => x.code)).contains (pyStrip ec) = false := by
      simpa using hmem
    have htc : (codes.map (fun x => x.code)).contains target = true := by
      simpa using htgt
    simp only [process_answer_with_llm]
    split
    · split
      · rfl
      next h2 => exact absurd (by rw [htc]; simp [hne]) h2
    next h1 => exact absurd (by rw [hcontains]; simp) h1
  · intro success ec reasoning target c rest hmem htgt
    have hcontains : ((c :: rest).map (fun x => x.code)).contains (pyStrip ec) = false := by
      simpa using hmem
    have htc : ((c :: rest).map (fun x => x.code)).contains target = false := by
      simpa using htgt
    cases hl : ((c :: rest).map (fun x => x.code)).getLast? with
    | none => exact absurd hl (by simp)
    | some last_code =>
        refine ⟨⟨success, last_code, "Emergency fallback elimination due to LLM error"⟩, ?_, by simp [hl]⟩
        simp only [process_answer_with_llm]
        split
        · split
          next h2 =>
            rw [htc] at h2
            simp at h2
          next h2 =>
            rw [List.map_cons] at hl
            simp [hl]
        next h1 => exact absurd (by rw [hcontains]; simp) h1

/-- Witness for C7: the service names `Z9`, which is not among
`[A1, B2, C3]`; question generation falls back to `A1` with the fallback
reasoning, answer processing falls back to the target `B2`, and with the
target also invalid it falls back to the last candidate. -/
theorem reasoning_fallbacks_deterministic_witness :
    generate_differential_question_with_llm
        (.parsed true "Is the pain sharp?" "Z9" "service reasoning" ["Yes", "No"])
        [candA, candB, candC] [] =
      some ⟨true, "Is the pain sharp?", candA.code,
        "Fallback targeting due to invalid LLM response", ["Yes", "No"]⟩ ∧
    process_answer_with_llm (.parsed true "Z9" "service reasoning") [candA, candB, candC] "B2" =
      some ⟨true, "B2", "Fallback elimination of target code due to invalid LLM response"⟩ ∧
    (∃ res : ElimLLMResult,
        process_answer_with_llm (.parsed true "Z9" "service reasoning") [candA, candB, candC] "Z8" =
          some res ∧
        some res.eliminated_code = ([candA, candB, candC].map (fun x => x.code)).getLast?) :=
  ⟨reasoning_fallbacks_deterministic.1 true "Is the pain sharp?" "Z9" "service reasoning"
      ["Yes", "No"] candA [candB, candC] [] (by decide),
   reasoning_fallbacks_deterministic.2.1 true "Z9" "service reasoning" "B2"
      [candA, candB, candC] (by decide) (by decide) (by decide),
   reasoning_fallbacks_deterministic.2.2 true "Z9" "service reasoning" "Z8"
      candA [candB, candC] (by decide) (by decide)⟩
